import Mathlib

/-!
Verification of the Interior Design Assistant request/response layer.

The development shallowly embeds the request marshalling, prompt
construction, response validation and error translation logic of
`src/api/generate.ts` (the Vercel edge handler together with the two
bundled copies of the Gemini service functions) and
`src/services/geminiService.ts` (the client facade).  The external
generative model, the HTTP transport and the JS runtime are modelled at
the boundaries described in the spec: provider responses, parsed JSON
bodies and transport outcomes are explicit data, and thrown JS errors
are `Except.error` carrying the error message.
-/

namespace InteriorDesign

/-! ### JSON values

Values produced by `JSON.parse`.  Numbers are modelled as integers
(no claim depends on fractional values), objects as association lists. -/

inductive Json where
  | null
  | bool (b : Bool)
  | num (n : Int)
  | str (s : String)
  | arr (elems : List Json)
  | obj (fields : List (String × Json))

/-- JS truthiness of a JSON value: `null`, `false`, `0` and `""` are
falsy; arrays and objects (even empty ones) are truthy. -/
def Json.truthy : Json → Bool
  | .null => false
  | .bool b => b
  | .num n => n != 0
  | .str s => s != ""
  | .arr _ => true
  | .obj _ => true

/-- JS property access `j.key`: `none` models `undefined` (absent key,
or access on a non-object value). -/
def Json.getField : Json → String → Option Json
  | .obj fields, key => fields.lookup key
  | _, _ => none

/-- JS truthiness of a property access: an absent property
(`undefined`) is falsy. -/
def truthyField (j : Json) (key : String) : Bool :=
  match j.getField key with
  | some v => v.truthy
  | none => false

/-- Truthiness of an optional JS string (`undefined` and `""` are
falsy). -/
def jsTruthyStr : Option String → Bool
  | some s => s != ""
  | none => false

/-- JS `a || b` for an optionally-present string `a`: the fallback is
used when `a` is `undefined` or empty. -/
def jsOrElse (primary : Option String) (fallback : String) : String :=
  match primary with
  | some s => if s != "" then s else fallback
  | none => fallback

/-- JS `s.toLowerCase()`, modelled characterwise (the values compared
in the code are ASCII). -/
def jsToLowerCase (s : String) : String :=
  ⟨s.data.map Char.toLower⟩

/-! ### JS `String.prototype.includes`

`jsIncludes s sub` is true when `sub` occurs contiguously in `s`,
matching the JS substring test used by the client facade and used here
to state "the message contains ..." properties. -/

/-- Substring occurrence on character lists: scan every suffix for the
needle as a prefix. -/
def jsIncludesList (needle : List Char) : List Char → Bool
  | [] => needle.isEmpty
  | c :: rest => needle.isPrefixOf (c :: rest) || jsIncludesList needle rest

/-- JS `s.includes(sub)`. -/
def jsIncludes (s sub : String) : Bool :=
  jsIncludesList sub.data s.data

/-! ### Data model (from the spec's section 3; the `../types` module is
not under `src/`, so the record shapes are taken from the spec's data
model, which the code's field accesses agree with). -/

/-- Modelled from the spec: `ColorPalette` from the `../types` module
(not under `src/`): a primary/accent colour pair. -/
structure ColorPalette where
  color : String
  accent : String

/-- Modelled from the spec: `FurnitureItem` from the `../types` module
(not under `src/`). -/
structure FurnitureItem where
  name : String
  description : String
  placement : String
  estimatedPrice : Int
  modelUrl : Option String

/-- Modelled from the spec: the `estimatedCost` record of a design
plan. -/
structure EstimatedCost where
  min : Int
  max : Int
  currency : String

/-- Modelled from the spec: `DesignPlan` from the `../types` module
(not under `src/`). -/
structure DesignPlan where
  analysis : String
  designRationale : String
  wallColor : ColorPalette
  lighting : String
  flooring : String
  furnitureSuggestions : List FurnitureItem
  estimatedCost : EstimatedCost
  alternativePalettes : List ColorPalette

/-- Modelled from the spec: `RoomDimensions` from the `../types` module
(not under `src/`): `width` and `length` are numbers; the record as a
whole is optional at the call sites. -/
structure RoomDimensions where
  width : Int
  length : Int
  unit : String

/-! ### generateDesignIdeas (src/api/generate.ts, lines 121-168) -/

/-- The conditional dimension sentence (lines 129-133): built only when
`dimensions` is provided and both `width` and `length` are truthy
(non-zero); `unit === 'ft'` renders as "feet", anything else as
"meters". -/
def dimensionText (dimensions : Option RoomDimensions) : String :=
  match dimensions with
  | none => ""
  | some d =>
    if d.width != 0 && d.length != 0 then
      let unitName := if d.unit = "ft" then "feet" else "meters"
      " The user has specified the room is approximately " ++ toString d.width ++ " " ++
      unitName ++ " wide by " ++ toString d.length ++ " " ++ unitName ++
      " long. Please ensure your furniture suggestions and layout advice are appropriately scaled for a room of this size and explicitly mention this in your analysis."
    else ""

/-- The fixed part of the design-ideas prompt before the dimension
sentence (line 136). -/
def designIdeasPromptPre (style roomType : String) : String :=
  "You are a world-class AI interior designer with a keen eye for detail and aesthetics. Analyze the provided room image, which is a " ++
  roomType ++
  ", and generate a complete design makeover plan in a friendly and inspiring tone. The user wants a \"" ++
  style ++
  "\" style. Your recommendations must be appropriate for a " ++ roomType ++
  ". Your goal is to create a truly inspiring and practical makeover plan.\n    "

/-- The fixed part of the design-ideas prompt after the dimension
sentence (lines 138-147). -/
def designIdeasPromptPost (style : String) : String :=
  "\n    Your tasks are:\n    1. Briefly analyze the current room's strengths and weaknesses.\n    2. Suggest a full makeover based on the selected style, keeping the provided dimensions in mind if available.\n    3. Output specific ideas for a primary wall color palette, flooring, and lighting.\n    4. Recommend 3-5 key furniture or decor items with detailed descriptions and placement suggestions. Ensure items are scaled correctly for the room. For each recommended item, you must also provide a `modelUrl`, which should be a publicly accessible URL to a 3D model of the item, preferably in GLTF or OBJ format. If a real model cannot be found, provide a realistic placeholder URL (e.g., 'https://models.example.com/modern_chair.gltf').\n    5. Provide a realistic, estimated total budget range (min and max) for the complete makeover. Also, include an estimated price for each recommended furniture item. All monetary values should be in USD.\n    6. Also provide exactly 3 alternative color palettes (primary and accent) that would offer a different mood while still fitting the requested style.\n    7. Provide a 'Design Rationale' explaining why your suggestions create a cohesive and high-quality '" ++
  style ++
  "' design, touching on principles like balance, harmony, or focal points.\n\n    Provide the output in JSON format according to the provided schema. Ensure the descriptions are vivid and helpful."

/-- The full text part of the design-ideas request (lines 135-148): the
fixed instruction block with the conditional dimension sentence
interpolated. -/
def designIdeasPromptText (style roomType : String) (dimensions : Option RoomDimensions) : String :=
  designIdeasPromptPre style roomType ++ dimensionText dimensions ++ designIdeasPromptPost style

/-- The validation error thrown at lines 163-165. -/
def designIdeasValidationError : String :=
  "AI response is missing required fields like 'furnitureSuggestions', 'estimatedCost', or 'alternativePalettes'."

/-- The tail of `generateDesignIdeas` after the provider call (lines
160-167), applied to the JSON value that the response text parsed to:
throw unless `furnitureSuggestions`, `estimatedCost` and
`alternativePalettes` are all truthy properties, else return the parsed
object. -/
def generateDesignIdeasResult (parsedJson : Json) : Except String Json :=
  if !truthyField parsedJson "furnitureSuggestions" ||
     !truthyField parsedJson "estimatedCost" ||
     !truthyField parsedJson "alternativePalettes" then
    .error designIdeasValidationError
  else
    .ok parsedJson

/-! ### generateMorePalettes (src/api/generate.ts, lines 252-279) -/

/-- The tail of `generateMorePalettes` after the provider call (lines
276-278), applied to the JSON value that the response text parsed to:
the parsed value is returned unconditionally (`return parsedJson as
ColorPalette[]`), with no field or length validation. -/
def generateMorePalettesResult (parsedJson : Json) : Except String Json :=
  .ok parsedJson

/-! ### Provider response model (spec section 6, provider boundary)

A `generateContent` response exposes a textual payload, zero or more
candidates (each with a finish reason and content parts, each part
optionally carrying inline binary data) and prompt-level feedback
(block reason, safety ratings).  Optional fields are `Option`;
`inlineData.data` is the base64 image payload as a string. -/

structure SafetyRating where
  category : String
  probability : String

structure PromptFeedback where
  blockReason : Option String
  safetyRatings : Option (List SafetyRating)

/-- An inline-data blob of a response part (the mime type is never
inspected by the code under verification and is omitted). -/
structure InlineData where
  data : Option String

structure ResponsePart where
  inlineData : Option InlineData

structure Content where
  parts : Option (List ResponsePart)

structure Candidate where
  finishReason : Option String
  content : Option Content

structure GenerateContentResponse where
  candidates : Option (List Candidate)
  promptFeedback : Option PromptFeedback
  text : Option String

/-! ### generateRedesignedImage response handling
(src/api/generate.ts, lines 204-237; the identical logic appears again
at lines 502-535) -/

/-- `response.candidates?.[0]` (line 204). -/
def firstCandidate (r : GenerateContentResponse) : Option Candidate :=
  r.candidates.bind List.head?

/-- The aggregated `category: probability` string of line 208:
`response.promptFeedback?.safetyRatings?.map(...).join(', ')`. -/
def safetyRatingsText (pf : Option PromptFeedback) : Option String :=
  (pf.bind PromptFeedback.safetyRatings).map fun rs =>
    String.intercalate ", " (rs.map fun r => r.category ++ ": " ++ r.probability)

/-- The generic empty-response message of line 209. -/
def emptyResponseMessage : String :=
  "The AI returned an empty response, which could be due to a safety filter or a temporary issue."

/-- The no-candidate failure message (lines 207-214): the block reason
when truthy, else the aggregated safety ratings when the joined string
is truthy, else the generic empty-response text. -/
def emptyResponseReason (pf : Option PromptFeedback) : String :=
  let blockReason := pf.bind PromptFeedback.blockReason
  let safetyRatings := safetyRatingsText pf
  if jsTruthyStr blockReason then
    "Request was blocked due to: " ++ blockReason.getD "" ++ "."
  else if jsTruthyStr safetyRatings then
    "Request may have been blocked by safety filters. Ratings: " ++ safetyRatings.getD ""
  else
    emptyResponseMessage

/-- The condition of line 218: `candidate.finishReason &&
candidate.finishReason !== 'STOP'` (truthy and not the normal-stop
value). -/
def stopsOnFinishReason (candidate : Candidate) : Bool :=
  jsTruthyStr candidate.finishReason && (candidate.finishReason.getD "" != "STOP")

/-- The per-part check of line 224: `part.inlineData &&
part.inlineData.data` (inline data present with a truthy payload). -/
def partImageData (p : ResponsePart) : Option String :=
  match p.inlineData with
  | some d =>
    match d.data with
    | some s => if s != "" then some s else none
    | none => none
  | none => none

/-- The content scan of lines 222-228: when `candidate.content` and
`candidate.content.parts` are both present, the first part carrying
truthy inline data wins. -/
def firstImageData (candidate : Candidate) : Option String :=
  match candidate.content with
  | some content =>
    match content.parts with
    | some parts => parts.findSome? partImageData
    | none => none
  | none => none

/-- The text-fallback failure message of line 233, built from the
response text truncated to its first 100 characters
(`textResponse.substring(0, 100)`). -/
def textInsteadOfImageMessage (t : String) : String :=
  "The AI provided a text response instead of an image. This can happen if the request is not possible to fulfill. AI response: \"" ++
  t.take 100 ++ "...\""

/-- The final no-image failure message of line 236. -/
def noImageMessage : String :=
  "The AI did not return a redesigned image. The response was valid but contained no image data."

/-- The response handling of `generateRedesignedImage` (lines 204-237):
the ordered decision sequence over the provider response — no candidate,
then non-stop finish reason, then content scan for inline data, then
text fallback, then the generic no-image failure. -/
def handleImageResponse (r : GenerateContentResponse) : Except String String :=
  match firstCandidate r with
  | none => .error (emptyResponseReason r.promptFeedback)
  | some candidate =>
    if stopsOnFinishReason candidate then
      .error ("Image generation stopped unexpectedly. Reason: " ++ candidate.finishReason.getD "")
    else
      match firstImageData candidate with
      | some data => .ok data
      | none =>
        if jsTruthyStr r.text then
          .error (textInsteadOfImageMessage (r.text.getD ""))
        else
          .error noImageMessage

/-! ### generateRedesignedImage prompt, server copy
(src/api/generate.ts, lines 171-191) -/

/-- The furniture enumeration of line 172:
one `- name: placement` line per suggestion, joined with newlines. -/
def furnitureListServer (plan : DesignPlan) : String :=
  String.intercalate "\n" (plan.furnitureSuggestions.map fun f =>
    "- " ++ f.name ++ ": " ++ f.placement)

/-- The prompt template of lines 183-191 with the two wall colours
already resolved. -/
def redesignPromptWithColors (plan : DesignPlan) (style roomType primaryColor accentColor : String) : String :=
  "Redesign this " ++ roomType ++ " in a photorealistic " ++ style ++ " style.\n" ++
  "Incorporate these elements:\n" ++
  "- Walls: " ++ primaryColor ++ " with " ++ accentColor ++ " accents.\n" ++
  "- Flooring: " ++ plan.flooring ++ ".\n" ++
  "- Lighting: " ++ plan.lighting ++ ".\n" ++
  "- Furniture:\n" ++
  furnitureListServer plan ++
  "\nCrucially, preserve the original room's structure, like walls, windows, and doors. Replace only the furnishings and decor.\n" ++
  "The final output must be only the redesigned image, with no text."

/-- The textual prompt of the server-side `generateRedesignedImage`
(lines 172-191): `newColors?.color || designPlan.wallColor.color` and
`newColors?.accent || designPlan.wallColor.accent` resolve the colours,
then the template is built. -/
def generateRedesignedImagePrompt (plan : DesignPlan) (style roomType : String)
    (newColors : Option ColorPalette) : String :=
  redesignPromptWithColors plan style roomType
    (jsOrElse (newColors.map ColorPalette.color) plan.wallColor.color)
    (jsOrElse (newColors.map ColorPalette.accent) plan.wallColor.accent)

/-! ### generateRedesignedImage prompt, direct-call client copy
(src/api/generate.ts, lines 443-492) — the duplicate implementation
keyed on `roomType.toLowerCase() === 'exterior'`. -/

/-- The furniture enumeration of line 451:
`- name (description) placed at: placement` lines joined with
newlines. -/
def furnitureListClient (plan : DesignPlan) : String :=
  String.intercalate "\n" (plan.furnitureSuggestions.map fun f =>
    "- " ++ f.name ++ " (" ++ f.description ++ ") placed at: " ++ f.placement)

/-- The exterior prompt template of lines 459-473 (before the final
`trim()`). -/
def exteriorPromptRaw (plan : DesignPlan) (style primaryColor accentColor : String) : String :=
  "\n      Photorealistically redesign this building's exterior in a \"" ++ style ++
  "\" style.\n      \n      New Design Elements:\n      - Primary Color: \"" ++ primaryColor ++
  "\" for the main walls.\n      - Accent Color: \"" ++ accentColor ++
  "\" for trim, doors, and other features.\n      - Lighting: Implement \"" ++ plan.lighting ++
  "\". Render in bright, natural daylight.\n      - " ++ "Landscaping & Decor" ++
  ": Remove all existing movable items and add the following:\n      " ++
  furnitureListClient plan ++
  "\n      \n      Key Rules:\n      1.  The final image must be indistinguishable from a real photograph.\n      2.  Do NOT alter the building's fixed architecture (windows, doors, " ++
  "roofline" ++ ", etc.).\n      3.  Completely replace all original surfaces and movable objects with the new design.\n      "

/-- The interior prompt template of lines 475-489 (before the final
`trim()`). -/
def interiorPromptRaw (plan : DesignPlan) (style primaryColor accentColor : String) : String :=
  "\n      Photorealistically redesign this room in a \"" ++ style ++
  "\" style.\n      \n      New Design Elements:\n      - Wall Color: \"" ++ primaryColor ++
  "\" for main walls, with \"" ++ accentColor ++
  "\" as an accent.\n      - Flooring: Replace the floor with \"" ++ plan.flooring ++
  "\".\n      - Lighting: Implement \"" ++ plan.lighting ++
  "\" for a natural, welcoming ambiance.\n      - " ++ "Furniture" ++
  ": Remove all existing furniture. Add and arrange the following new pieces:\n      " ++
  furnitureListClient plan ++
  "\n  \n      Key Rules:\n      1.  The final image must be indistinguishable from a real photograph.\n      2.  Do NOT alter the room's fixed architecture (windows, doors, structural elements, etc.).\n      3.  Completely replace all original surfaces and furniture with the new design.\n      "

/-- The textual prompt of the direct-call client copy of
`generateRedesignedImage` (lines 451-492): colours resolved with `||`
fallbacks, the template chosen by `roomType.toLowerCase() ===
'exterior'`, and the result trimmed. -/
def generateRedesignedImagePromptClient (plan : DesignPlan) (style roomType : String)
    (newColors : Option ColorPalette) : String :=
  let primaryColor := jsOrElse (newColors.map ColorPalette.color) plan.wallColor.color
  let accentColor := jsOrElse (newColors.map ColorPalette.accent) plan.wallColor.accent
  let isExterior := jsToLowerCase roomType = "exterior"
  (if isExterior then exteriorPromptRaw plan style primaryColor accentColor
   else interiorPromptRaw plan style primaryColor accentColor).trim

/-! ### The action dispatcher (src/api/generate.ts, lines 17-50)

The handler receives the request method and the outcome of
`await request.json()` (`Except.error` carries the message of the
exception thrown by a failed body parse).  The three provider-backed
operations are parameters: each takes the `payload` property of the
parsed body (`none` models `undefined`) and either returns a result
value or throws. -/

structure HttpResponse where
  status : Nat
  body : Json

/-- A `{ error: msg }` JSON body. -/
def errorBody (msg : String) : Json :=
  .obj [("error", .str msg)]

/-- `isNullJson parsed = true` exactly when the parsed body is JSON
`null`, the one `JSON.parse` result that makes the destructuring
`const { action, payload } = ...` of line 23 throw. -/
def isNullJson : Json → Bool
  | .null => true
  | _ => false

/-- The TypeError message the runtime produces when line 23 destructures
a `null` body; its exact text is engine-specific and only its existence
matters for the contract. -/
def destructureNullMessage : String :=
  "Cannot destructure property 'action' of 'await request.json()' as it is null."

/-- How an operation outcome leaves the handler: a result becomes the
200 response of line 43; a thrown failure is caught at line 45 and
becomes the 500 `Server error: ...` response of line 48. -/
def respondWith : Except String Json → HttpResponse
  | .ok v => ⟨200, v⟩
  | .error msg => ⟨500, errorBody ("Server error: " ++ msg)⟩

/-- The `switch (action)` of lines 29-41: a recognized action name runs
the matching operation on the body's `payload` property; anything else
is the 400 `Invalid action` response of line 40. -/
def route (parsed : Json)
    (gdi gri gmp : Option Json → Except String Json) : HttpResponse :=
  match parsed.getField "action" with
  | some (Json.str "generateDesignIdeas") => respondWith (gdi (parsed.getField "payload"))
  | some (Json.str "generateRedesignedImage") => respondWith (gri (parsed.getField "payload"))
  | some (Json.str "generateMorePalettes") => respondWith (gmp (parsed.getField "payload"))
  | _ => ⟨400, errorBody "Invalid action"⟩

/-- The edge-function handler (lines 17-50): non-POST methods are
rejected with 405 before anything else; then the body parse and
destructuring run inside the catch-all try block, so their failures
surface as 500 `Server error: ...` responses; then the action switch
routes. -/
def handler (method : String) (parsedBody : Except String Json)
    (gdi gri gmp : Option Json → Except String Json) : HttpResponse :=
  if method = "POST" then
    match parsedBody with
    | .error e => ⟨500, errorBody ("Server error: " ++ e)⟩
    | .ok parsed =>
      if isNullJson parsed then
        ⟨500, errorBody ("Server error: " ++ destructureNullMessage)⟩
      else
        route parsed gdi gri gmp
  else
    ⟨405, errorBody "Method not allowed"⟩

/-- Spec-side helper naming the three recognized action values, for
stating the dispatcher contract. -/
def recognizedAction : Option Json → Bool
  | some (Json.str "generateDesignIdeas") => true
  | some (Json.str "generateRedesignedImage") => true
  | some (Json.str "generateMorePalettes") => true
  | _ => false

/-! ### The client facade (src/services/geminiService.ts, lines 4-25)

`callApi` is modelled on the transport outcome it observes: the `ok`
flag of the fetch response and the outcome of `response.json()`
(`Except.error` carries the message of the exception thrown by a failed
body parse; there is no `catch` around it in this file, so that
exception propagates to the caller). -/

structure TransportResponse where
  ok : Bool
  body : Except String Json

/-- The fixed safety-filter message of line 19. -/
def safetyFriendlyMessage : String :=
  "The request was blocked by a safety filter. Please modify your prompt or image."

/-- The TypeError thrown by line 18 when `result.error` is truthy but
not a string (so has no `includes` method); its exact text is
engine-specific.  The server only ever sends string `error` fields, so
no claim exercises this branch. -/
def includesTypeErrorMessage : String :=
  "result.error.includes is not a function"

/-- The client facade `callApi` (lines 4-25): parse the body
unconditionally (line 13; a parse failure propagates as thrown), then
on a non-ok response build `userFriendlyError` from `result.error`
(lines 15-21) and throw it; on an ok response return the parsed
result. -/
def callApi (response : TransportResponse) : Except String Json :=
  match response.body with
  | .error parseError => .error parseError
  | .ok result =>
    if response.ok then
      .ok result
    else
      match result.getField "error" with
      | some (Json.str s) =>
        if s != "" && jsIncludes s "safety" then
          .error safetyFriendlyMessage
        else
          .error ("An error occurred: " ++ (if s != "" then s else "Unknown server error"))
      | some v =>
        if v.truthy then .error includesTypeErrorMessage
        else .error ("An error occurred: " ++ "Unknown server error")
      | none => .error ("An error occurred: " ++ "Unknown server error")

/-! ### Basic lemmas about `jsIncludes` and `String.intercalate` -/

lemma isPrefixOf_append_self (n t : List Char) : n.isPrefixOf (n ++ t) = true := by
  induction n with
  | nil => simp [List.isPrefixOf]
  | cons c cs ih => simp [List.isPrefixOf, ih]

lemma jsIncludesList_self_append (n t : List Char) : jsIncludesList n (n ++ t) = true := by
  match h : n ++ t with
  | [] =>
    obtain ⟨hn, _⟩ := List.append_eq_nil.mp h
    rw [hn]
    simp [jsIncludesList]
  | c :: rest =>
    rw [jsIncludesList, ← h, isPrefixOf_append_self]
    simp

lemma jsIncludesList_prepend (n p l : List Char) (h : jsIncludesList n l = true) :
    jsIncludesList n (p ++ l) = true := by
  induction p with
  | nil => simpa using h
  | cons c p ih =>
    rw [List.cons_append, jsIncludesList, ih]
    simp

lemma isPrefixOf_decomp (n : List Char) : ∀ l : List Char, n.isPrefixOf l = true →
    ∃ t, l = n ++ t := by
  induction n with
  | nil => exact fun l _ => ⟨l, rfl⟩
  | cons c cs ih =>
    intro l h
    match l with
    | [] => simp [List.isPrefixOf] at h
    | d :: ds =>
      rw [List.isPrefixOf, Bool.and_eq_true, beq_iff_eq] at h
      obtain ⟨t, ht⟩ := ih ds h.2
      exact ⟨t, by rw [h.1, ht]; rfl⟩

lemma jsIncludesList_decomp (n : List Char) : ∀ l : List Char, jsIncludesList n l = true →
    ∃ p q, l = p ++ (n ++ q) := by
  intro l
  induction l with
  | nil =>
    intro h
    rw [jsIncludesList, List.isEmpty_iff] at h
    exact ⟨[], [], by simp [h]⟩
  | cons c rest ih =>
    intro h
    rw [jsIncludesList, Bool.or_eq_true] at h
    rcases h with h | h
    · obtain ⟨t, ht⟩ := isPrefixOf_decomp n (c :: rest) h
      exact ⟨[], t, by simp [ht]⟩
    · obtain ⟨p, q, hpq⟩ := ih h
      exact ⟨c :: p, q, by simp [hpq]⟩

/-- `jsIncludes` agrees with the existence of a contiguous-occurrence
decomposition. -/
lemma jsIncludes_iff_decomp (s sub : String) :
    jsIncludes s sub = true ↔ ∃ p q, s = p ++ (sub ++ q) := by
  constructor
  · intro h
    obtain ⟨p, q, hpq⟩ := jsIncludesList_decomp sub.data s.data h
    refine ⟨⟨p⟩, ⟨q⟩, ?_⟩
    apply String.ext
    rw [String.data_append, String.data_append, hpq]
  · rintro ⟨p, q, rfl⟩
    rw [jsIncludes, String.data_append, String.data_append]
    exact jsIncludesList_prepend _ _ _ (jsIncludesList_self_append _ _)

/-- A middle component of a concatenation is always `jsIncludes`-found. -/
lemma jsIncludes_middle (a b c : String) : jsIncludes (a ++ b ++ c) b = true :=
  (jsIncludes_iff_decomp _ _).mpr ⟨a, c, by rw [String.append_assoc]⟩

lemma intercalate_go_decomp (sep : String) :
    ∀ (l : List String) (acc : String), ∃ t, String.intercalate.go acc sep l = acc ++ t := by
  intro l
  induction l with
  | nil => exact fun acc => ⟨"", (String.append_empty acc).symm⟩
  | cons a as ih =>
    intro acc
    obtain ⟨t, ht⟩ := ih (acc ++ sep ++ a)
    refine ⟨sep ++ a ++ t, ?_⟩
    rw [show String.intercalate.go acc sep (a :: as) = String.intercalate.go (acc ++ sep ++ a) sep as from rfl, ht]
    simp [String.append_assoc]

lemma intercalate_go_mem_decomp (sep : String) :
    ∀ (l : List String) (acc a : String), a ∈ l →
      ∃ p q, String.intercalate.go acc sep l = p ++ (a ++ q) := by
  intro l
  induction l with
  | nil => intro _ a h; cases h
  | cons b bs ih =>
    intro acc a h
    rw [show String.intercalate.go acc sep (b :: bs) = String.intercalate.go (acc ++ sep ++ b) sep bs from rfl]
    rcases List.mem_cons.mp h with rfl | hmem
    · obtain ⟨t, ht⟩ := intercalate_go_decomp sep bs (acc ++ sep ++ a)
      refine ⟨acc ++ sep, t, ?_⟩
      rw [ht]
      simp [String.append_assoc]
    · exact ih (acc ++ sep ++ b) a hmem

/-- Every member of the joined list occurs contiguously in
`String.intercalate`. -/
lemma intercalate_mem_decomp (sep : String) {l : List String} {a : String} (h : a ∈ l) :
    ∃ p q, String.intercalate sep l = p ++ (a ++ q) := by
  match l with
  | [] => cases h
  | b :: bs =>
    rw [show String.intercalate sep (b :: bs) = String.intercalate.go b sep bs from rfl]
    rcases List.mem_cons.mp h with rfl | hmem
    · obtain ⟨t, ht⟩ := intercalate_go_decomp sep bs a
      exact ⟨"", t, by rw [ht, String.empty_append]⟩
    · exact intercalate_go_mem_decomp sep bs b a hmem

/-! ### Reduction lemmas for the dispatcher -/

lemma getField_not_null {parsed : Json} {k : String} {v : Json}
    (h : parsed.getField k = some v) : isNullJson parsed = false := by
  cases parsed <;> simp_all [Json.getField, isNullJson]

lemma handler_post_not_null (parsed : Json) (h : isNullJson parsed = false)
    (gdi gri gmp : Option Json → Except String Json) :
    handler "POST" (.ok parsed) gdi gri gmp = route parsed gdi gri gmp := by
  simp [handler, h]

lemma route_invalid (parsed : Json)
    (h : recognizedAction (parsed.getField "action") = false)
    (gdi gri gmp : Option Json → Except String Json) :
    route parsed gdi gri gmp = ⟨400, errorBody "Invalid action"⟩ := by
  unfold route
  split
  · next heq => rw [heq] at h; simp [recognizedAction] at h
  · next heq => rw [heq] at h; simp [recognizedAction] at h
  · next heq => rw [heq] at h; simp [recognizedAction] at h
  · rfl

lemma route_gdi (parsed : Json)
    (h : parsed.getField "action" = some (.str "generateDesignIdeas"))
    (gdi gri gmp : Option Json → Except String Json) :
    route parsed gdi gri gmp = respondWith (gdi (parsed.getField "payload")) := by
  unfold route
  rw [h]
  rfl

lemma route_gri (parsed : Json)
    (h : parsed.getField "action" = some (.str "generateRedesignedImage"))
    (gdi gri gmp : Option Json → Except String Json) :
    route parsed gdi gri gmp = respondWith (gri (parsed.getField "payload")) := by
  unfold route
  rw [h]
  rfl

lemma route_gmp (parsed : Json)
    (h : parsed.getField "action" = some (.str "generateMorePalettes"))
    (gdi gri gmp : Option Json → Except String Json) :
    route parsed gdi gri gmp = respondWith (gmp (parsed.getField "payload")) := by
  unfold route
  rw [h]
  rfl

/-! ### A non-empty safety-rating list joins to a truthy string -/

lemma intercalate_pairs_ne_empty (x : SafetyRating) (l : List SafetyRating) :
    String.intercalate ", " ((x :: l).map fun r => r.category ++ ": " ++ r.probability) ≠ "" := by
  rw [List.map_cons,
    show String.intercalate ", "
        ((x.category ++ ": " ++ x.probability) :: l.map fun r => r.category ++ ": " ++ r.probability) =
      String.intercalate.go (x.category ++ ": " ++ x.probability) ", "
        (l.map fun r => r.category ++ ": " ++ r.probability) from rfl]
  obtain ⟨t, ht⟩ := intercalate_go_decomp ", "
    (l.map fun r => r.category ++ ": " ++ r.probability) (x.category ++ ": " ++ x.probability)
  rw [ht]
  intro h
  have hlen := congrArg String.length h
  rw [String.length_append, String.length_append, String.length_append] at hlen
  have h2 : (": ").length = 2 := rfl
  have h0 : ("" : String).length = 0 := rfl
  omega

lemma jsTruthyStr_some (s : String) : jsTruthyStr (some s) = (s != "") := rfl

lemma jsTruthyStr_none : jsTruthyStr none = false := rfl

/-! ### Claim theorems -/

/-- C1: for every provider response, `requestRedesignedImage`'s response
handling follows the five-clause decision sequence in order, each clause
terminal: (1) no candidate fails with the blocked/empty-response
message; (2) else a present (truthy) finish reason other than the
normal-stop value `STOP` fails with a message including that finish
reason — regardless of any image part, which settles the priority
question; (3) else the first content part carrying inline binary data is
returned; (4) else a truthy response text fails with a message embedding
at most its first 100 characters; (5) else the no-image-returned
failure. -/
theorem C1_redesign_response_decision_sequence (r : GenerateContentResponse) :
    (firstCandidate r = none →
       handleImageResponse r = .error (emptyResponseReason r.promptFeedback)) ∧
    (∀ c fr, firstCandidate r = some c → c.finishReason = some fr → fr ≠ "" → fr ≠ "STOP" →
       handleImageResponse r = .error ("Image generation stopped unexpectedly. Reason: " ++ fr)) ∧
    (∀ c d, firstCandidate r = some c → stopsOnFinishReason c = false → firstImageData c = some d →
       handleImageResponse r = .ok d) ∧
    (∀ c t, firstCandidate r = some c → stopsOnFinishReason c = false → firstImageData c = none →
       r.text = some t → t ≠ "" →
       handleImageResponse r = .error (textInsteadOfImageMessage t) ∧
       textInsteadOfImageMessage t =
         "The AI provided a text response instead of an image. This can happen if the request is not possible to fulfill. AI response: \"" ++
           t.take 100 ++ "...\"") ∧
    (∀ c, firstCandidate r = some c → stopsOnFinishReason c = false → firstImageData c = none →
       jsTruthyStr r.text = false →
       handleImageResponse r = .error noImageMessage) := by
  refine ⟨?_, ?_, ?_, ?_, ?_⟩
  · intro h
    simp [handleImageResponse, h]
  · intro c fr hc hfr h1 h2
    have hstop : stopsOnFinishReason c = true := by
      simp only [stopsOnFinishReason, jsTruthyStr, hfr, Option.getD_some, Bool.and_eq_true,
        bne_iff_ne]
      exact ⟨h1, h2⟩
    simp [handleImageResponse, hc, hstop, hfr]
  · intro c d hc hstop himg
    simp [handleImageResponse, hc, hstop, himg]
  · intro c t hc hstop himg ht hne
    refine ⟨?_, rfl⟩
    simp [handleImageResponse, hc, hstop, himg, ht, jsTruthyStr, bne_iff_ne, hne]
  · intro c hc hstop himg htxt
    simp [handleImageResponse, hc, hstop, himg, htxt]

/-- A response exhibiting two simultaneous anomaly signals: a non-stop
finish reason and an image part. -/
def safetyStopCandidate : Candidate :=
  ⟨some "SAFETY", some ⟨some [⟨some ⟨some "IMGDATA"⟩⟩]⟩⟩

def safetyStopResponse : GenerateContentResponse :=
  ⟨some [safetyStopCandidate], none, none⟩

/-- C1 witness: on a concrete response carrying both a non-stop finish
reason and an image part, the finish-reason clause wins. -/
theorem C1_redesign_response_decision_sequence_witness :
    firstImageData safetyStopCandidate = some "IMGDATA" ∧
    handleImageResponse safetyStopResponse =
      .error ("Image generation stopped unexpectedly. Reason: " ++ "SAFETY") :=
  ⟨rfl,
    (C1_redesign_response_decision_sequence safetyStopResponse).2.1 safetyStopCandidate "SAFETY"
      rfl rfl (by decide) (by decide)⟩

/-- C3: for every provider response with zero candidates the failure
message follows the precedence: populated block reason (contained
verbatim in the message), else non-empty safety ratings (enumerated as
`category: probability` pairs joined by commas), else the generic
empty-response text. -/
theorem C3_empty_response_message_precedence (r : GenerateContentResponse)
    (h : firstCandidate r = none) :
    (∀ pf br, r.promptFeedback = some pf → pf.blockReason = some br → br ≠ "" →
       handleImageResponse r = .error ("Request was blocked due to: " ++ br ++ ".") ∧
       jsIncludes ("Request was blocked due to: " ++ br ++ ".") br = true) ∧
    (∀ pf x l, r.promptFeedback = some pf → jsTruthyStr pf.blockReason = false →
       pf.safetyRatings = some (x :: l) →
       handleImageResponse r =
         .error ("Request may have been blocked by safety filters. Ratings: " ++
           String.intercalate ", " ((x :: l).map fun rt => rt.category ++ ": " ++ rt.probability))) ∧
    (∀ pf, r.promptFeedback = some pf → jsTruthyStr pf.blockReason = false →
       (pf.safetyRatings = none ∨ pf.safetyRatings = some []) →
       handleImageResponse r = .error emptyResponseMessage) ∧
    (r.promptFeedback = none → handleImageResponse r = .error emptyResponseMessage) := by
  refine ⟨?_, ?_, ?_, ?_⟩
  · intro pf br hpf hbr hne
    refine ⟨?_, jsIncludes_middle "Request was blocked due to: " br "."⟩
    simp [handleImageResponse, h, emptyResponseReason, hpf, hbr, jsTruthyStr, bne_iff_ne, hne]
  · intro pf x l hpf hbrf hsr
    have hne := intercalate_pairs_ne_empty x l
    rw [List.map_cons] at hne
    simp [handleImageResponse, h, emptyResponseReason, hpf, hbrf, safetyRatingsText, hsr,
      jsTruthyStr_some, bne_iff_ne]
    exact fun h2 => absurd h2 hne
  · intro pf hpf hbrf hsr
    rcases hsr with hsr | hsr <;>
      simp [handleImageResponse, h, emptyResponseReason, hpf, hbrf, safetyRatingsText, hsr,
        jsTruthyStr_some, jsTruthyStr_none, String.intercalate]
  · intro hpf
    simp [handleImageResponse, h, emptyResponseReason, hpf, safetyRatingsText, jsTruthyStr]

/-- A candidate-free response with a populated block reason (and safety
ratings, which must lose to the block reason). -/
def blockedResponse : GenerateContentResponse :=
  ⟨some [], some ⟨some "PROHIBITED_CONTENT", some [⟨"HARM_CATEGORY_HATE", "HIGH"⟩]⟩, none⟩

/-- C3 witness: on a concrete candidate-free response with a populated
block reason, the message carries the block reason verbatim. -/
theorem C3_empty_response_message_precedence_witness :
    handleImageResponse blockedResponse =
      .error ("Request was blocked due to: " ++ "PROHIBITED_CONTENT" ++ ".") ∧
    jsIncludes ("Request was blocked due to: " ++ "PROHIBITED_CONTENT" ++ ".")
      "PROHIBITED_CONTENT" = true :=
  (C3_empty_response_message_precedence blockedResponse rfl).1
    ⟨some "PROHIBITED_CONTENT", some [⟨"HARM_CATEGORY_HATE", "HIGH"⟩]⟩ "PROHIBITED_CONTENT"
    rfl rfl (by decide)

/-- C2 counterexample: a parsed payload on which all three required
keys are present — `furnitureSuggestions` bound to JSON `null` — yet
the plan is rejected, against the claim's "when all three fields are
present, the parsed object is returned". -/
def presentButNullPlanJson : Json :=
  Json.obj [("furnitureSuggestions", Json.null),
            ("estimatedCost", Json.obj [("min", Json.num 500), ("max", Json.num 1500),
                                        ("currency", Json.str "USD")]),
            ("alternativePalettes", Json.arr [Json.obj [("color", Json.str "Sage"),
                                                        ("accent", Json.str "Cream")]])]

/-- C2 counterexample: all three required keys are present on the
parsed object, but `generateDesignIdeas` still fails with the
validation error (the code tests truthiness, not presence), so the
claim's positive direction is false at this input. -/
theorem C2_present_but_null_rejected :
    (presentButNullPlanJson.getField "furnitureSuggestions").isSome = true ∧
    (presentButNullPlanJson.getField "estimatedCost").isSome = true ∧
    (presentButNullPlanJson.getField "alternativePalettes").isSome = true ∧
    generateDesignIdeasResult presentButNullPlanJson = .error designIdeasValidationError ∧
    (generateDesignIdeasResult presentButNullPlanJson).isOk = false :=
  ⟨rfl, rfl, rfl, rfl, rfl⟩

/-- C2 (amended): `generateDesignIdeas` fails with the validation error
whenever any of `furnitureSuggestions`, `estimatedCost`,
`alternativePalettes` is missing — or present but falsy (`null`,
`false`, `0`, `""`) — after parse, and returns the parsed object
exactly when all three are present and truthy. -/
theorem C2_design_plan_validation (parsed : Json) :
    (truthyField parsed "furnitureSuggestions" = false ∨
     truthyField parsed "estimatedCost" = false ∨
     truthyField parsed "alternativePalettes" = false →
       generateDesignIdeasResult parsed = .error designIdeasValidationError) ∧
    (parsed.getField "furnitureSuggestions" = none →
       generateDesignIdeasResult parsed = .error designIdeasValidationError) ∧
    (parsed.getField "estimatedCost" = none →
       generateDesignIdeasResult parsed = .error designIdeasValidationError) ∧
    (parsed.getField "alternativePalettes" = none →
       generateDesignIdeasResult parsed = .error designIdeasValidationError) ∧
    (truthyField parsed "furnitureSuggestions" = true →
     truthyField parsed "estimatedCost" = true →
     truthyField parsed "alternativePalettes" = true →
       generateDesignIdeasResult parsed = .ok parsed) := by
  refine ⟨?_, ?_, ?_, ?_, ?_⟩
  · intro h
    rcases h with h | h | h <;> simp [generateDesignIdeasResult, h]
  · intro h
    simp [generateDesignIdeasResult, truthyField, h]
  · intro h
    simp [generateDesignIdeasResult, truthyField, h]
  · intro h
    simp [generateDesignIdeasResult, truthyField, h]
  · intro h1 h2 h3
    simp [generateDesignIdeasResult, h1, h2, h3]

/-- A parsed payload with all three required fields present and
truthy. -/
def completePlanJson : Json :=
  Json.obj [("furnitureSuggestions", Json.arr [Json.obj [("name", Json.str "Sofa")]]),
            ("estimatedCost", Json.obj [("min", Json.num 500), ("max", Json.num 1500)]),
            ("alternativePalettes", Json.arr [])]

/-- C2 witness: a complete payload passes validation and is returned
unchanged; a payload missing `estimatedCost` is rejected. -/
theorem C2_design_plan_validation_witness :
    generateDesignIdeasResult completePlanJson = .ok completePlanJson ∧
    generateDesignIdeasResult (Json.obj [("furnitureSuggestions", Json.arr [Json.obj []])]) =
      .error designIdeasValidationError :=
  ⟨(C2_design_plan_validation completePlanJson).2.2.2.2 (by decide) (by decide) (by decide),
   (C2_design_plan_validation (Json.obj [("furnitureSuggestions", Json.arr [Json.obj []])])).2.2.1
     rfl⟩

/-- A parsed palette response that violates every soft constraint: one
entry instead of three, and the entry has no `accent`. -/
def invalidPalettesJson : Json :=
  Json.arr [Json.obj [("color", Json.str "Crimson")]]

/-- C7: `generateMorePalettes` returns whatever the response text
parsed to, with no validation: every parsed value — including one whose
entries lack `accent` and whose length is not 3 — comes back as a
success, never as a validation failure. -/
theorem C7_more_palettes_no_validation (parsedJson : Json) :
    generateMorePalettesResult parsedJson = .ok parsedJson ∧
    (generateMorePalettesResult parsedJson).isOk = true ∧
    generateMorePalettesResult invalidPalettesJson = .ok invalidPalettesJson ∧
    (Json.obj [("color", Json.str "Crimson")]).getField "accent" = none :=
  ⟨rfl, rfl, rfl, rfl⟩

/-- C4: the dispatcher contract: non-POST is 405; a POST whose action
is not one of the three recognized names is 400 `Invalid action` and no
operation is consulted (the response is the same for any operations); a
recognized action whose operation throws yields 500 with the message
prefixed by `Server error: `; a recognized action whose operation
returns yields 200 with the raw result as the entire body. -/
theorem C4_dispatcher_contract (method : String) (parsed : Json)
    (gdi gri gmp gdi2 gri2 gmp2 : Option Json → Except String Json) :
    (method ≠ "POST" → ∀ parsedBody,
       handler method parsedBody gdi gri gmp = ⟨405, errorBody "Method not allowed"⟩) ∧
    (recognizedAction (parsed.getField "action") = false → isNullJson parsed = false →
       handler "POST" (.ok parsed) gdi gri gmp = ⟨400, errorBody "Invalid action"⟩ ∧
       handler "POST" (.ok parsed) gdi gri gmp = handler "POST" (.ok parsed) gdi2 gri2 gmp2) ∧
    (∀ e, parsed.getField "action" = some (.str "generateDesignIdeas") →
       gdi (parsed.getField "payload") = .error e →
       handler "POST" (.ok parsed) gdi gri gmp = ⟨500, errorBody ("Server error: " ++ e)⟩) ∧
    (∀ e, parsed.getField "action" = some (.str "generateRedesignedImage") →
       gri (parsed.getField "payload") = .error e →
       handler "POST" (.ok parsed) gdi gri gmp = ⟨500, errorBody ("Server error: " ++ e)⟩) ∧
    (∀ e, parsed.getField "action" = some (.str "generateMorePalettes") →
       gmp (parsed.getField "payload") = .error e →
       handler "POST" (.ok parsed) gdi gri gmp = ⟨500, errorBody ("Server error: " ++ e)⟩) ∧
    (∀ v, parsed.getField "action" = some (.str "generateDesignIdeas") →
       gdi (parsed.getField "payload") = .ok v →
       handler "POST" (.ok parsed) gdi gri gmp = ⟨200, v⟩) ∧
    (∀ v, parsed.getField "action" = some (.str "generateRedesignedImage") →
       gri (parsed.getField "payload") = .ok v →
       handler "POST" (.ok parsed) gdi gri gmp = ⟨200, v⟩) ∧
    (∀ v, parsed.getField "action" = some (.str "generateMorePalettes") →
       gmp (parsed.getField "payload") = .ok v →
       handler "POST" (.ok parsed) gdi gri gmp = ⟨200, v⟩) := by
  refine ⟨?_, ?_, ?_, ?_, ?_, ?_, ?_, ?_⟩
  · intro h _
    simp [handler, h]
  · intro hact hnull
    constructor
    · rw [handler_post_not_null parsed hnull, route_invalid parsed hact]
    · rw [handler_post_not_null parsed hnull, route_invalid parsed hact,
        handler_post_not_null parsed hnull, route_invalid parsed hact]
  · intro e hact herr
    rw [handler_post_not_null parsed (getField_not_null hact), route_gdi parsed hact, herr]
    rfl
  · intro e hact herr
    rw [handler_post_not_null parsed (getField_not_null hact), route_gri parsed hact, herr]
    rfl
  · intro e hact herr
    rw [handler_post_not_null parsed (getField_not_null hact), route_gmp parsed hact, herr]
    rfl
  · intro v hact hok
    rw [handler_post_not_null parsed (getField_not_null hact), route_gdi parsed hact, hok]
    rfl
  · intro v hact hok
    rw [handler_post_not_null parsed (getField_not_null hact), route_gri parsed hact, hok]
    rfl
  · intro v hact hok
    rw [handler_post_not_null parsed (getField_not_null hact), route_gmp parsed hact, hok]
    rfl

/-- An operation that is never supposed to be consulted. -/
def unusedOp : Option Json → Except String Json := fun _ => .error "unused"

/-- A body with an unrecognized action name. -/
def deleteEverythingBody : Json :=
  Json.obj [("action", Json.str "deleteEverything")]

/-- A well-formed body for `generateMorePalettes`. -/
def morePalettesBody : Json :=
  Json.obj [("action", Json.str "generateMorePalettes"), ("payload", Json.obj [])]

/-- C4 witness: a GET is 405; `action: "deleteEverything"` is 400; a
recognized action with a succeeding operation is 200 with the raw
result body. -/
theorem C4_dispatcher_contract_witness :
    handler "GET" (.ok Json.null) unusedOp unusedOp unusedOp =
      ⟨405, errorBody "Method not allowed"⟩ ∧
    handler "POST" (.ok deleteEverythingBody) unusedOp unusedOp unusedOp =
      ⟨400, errorBody "Invalid action"⟩ ∧
    handler "POST" (.ok morePalettesBody) unusedOp unusedOp (fun _ => .ok (Json.arr [])) =
      ⟨200, Json.arr []⟩ :=
  ⟨(C4_dispatcher_contract "GET" Json.null unusedOp unusedOp unusedOp
      unusedOp unusedOp unusedOp).1 (by decide) (.ok Json.null),
   ((C4_dispatcher_contract "POST" deleteEverythingBody unusedOp unusedOp unusedOp
      unusedOp unusedOp unusedOp).2.1 (by decide) (by decide)).1,
   (C4_dispatcher_contract "POST" morePalettesBody unusedOp unusedOp
      (fun _ => .ok (Json.arr [])) unusedOp unusedOp unusedOp).2.2.2.2.2.2.2
     (Json.arr []) rfl rfl⟩

/-- C10: a POST whose body fails to parse as JSON — or parses to `null`,
which the destructuring of line 23 cannot take apart — is answered with
status 500 and a `Server error: `-prefixed message (the failure happens
inside the catch-all try block, not in action routing), and no operation
is consulted: the response is the same for any operations. -/
theorem C10_unparseable_body_is_500 (e : String)
    (gdi gri gmp gdi2 gri2 gmp2 : Option Json → Except String Json) :
    handler "POST" (.error e) gdi gri gmp =
      ⟨500, errorBody ("Server error: " ++ e)⟩ ∧
    handler "POST" (.ok Json.null) gdi gri gmp =
      ⟨500, errorBody ("Server error: " ++ destructureNullMessage)⟩ ∧
    handler "POST" (.error e) gdi gri gmp = handler "POST" (.error e) gdi2 gri2 gmp2 ∧
    handler "POST" (.ok Json.null) gdi gri gmp =
      handler "POST" (.ok Json.null) gdi2 gri2 gmp2 := by
  refine ⟨?_, ?_, ?_, ?_⟩ <;> simp [handler, isNullJson]

lemma jsIncludes_refl (s : String) : jsIncludes s s = true :=
  (jsIncludes_iff_decomp s s).mpr ⟨"", "", by simp⟩

lemma jsIncludes_append_left (a b sub : String) (h : jsIncludes a sub = true) :
    jsIncludes (a ++ b) sub = true := by
  obtain ⟨p, q, rfl⟩ := (jsIncludes_iff_decomp a sub).mp h
  exact (jsIncludes_iff_decomp _ _).mpr ⟨p, q ++ b, by simp [String.append_assoc]⟩

lemma jsIncludes_append_right (a b sub : String) (h : jsIncludes b sub = true) :
    jsIncludes (a ++ b) sub = true := by
  obtain ⟨p, q, rfl⟩ := (jsIncludes_iff_decomp b sub).mp h
  exact (jsIncludes_iff_decomp _ _).mpr ⟨a ++ p, q, by simp [String.append_assoc]⟩

/-- C5 counterexample input: a dimensions record whose `width` and
`length` are both structurally present, but `width` is `0`. -/
def zeroWidthDims : RoomDimensions := ⟨0, 10, "ft"⟩

/-- C5 counterexample: with `width = 0` and `length = 10` both present,
no dimension sentence is produced and the prompt is identical to the
no-dimensions prompt, against the claim's "if and only if both width
and length ... are present" (`0` is falsy to the `&&` guard of line
130). -/
theorem C5_zero_width_not_appended :
    dimensionText (some zeroWidthDims) = "" ∧
    designIdeasPromptText "Modern" "living room" (some zeroWidthDims) =
      designIdeasPromptText "Modern" "living room" none :=
  ⟨rfl, rfl⟩

/-- C5 (amended): the dimension sentence is appended to the prompt if
and only if the dimensions record is provided and both its `width` and
`length` are truthy (non-zero); when appended, unit `"ft"` renders as
"feet" and any other unit renders as "meters". -/
theorem C5_dimension_sentence (style roomType : String) (dims : Option RoomDimensions) :
    designIdeasPromptText style roomType dims =
      designIdeasPromptPre style roomType ++ dimensionText dims ++ designIdeasPromptPost style ∧
    (∀ d, dims = some d → d.width ≠ 0 → d.length ≠ 0 →
       dimensionText dims =
         " The user has specified the room is approximately " ++ toString d.width ++ " " ++
         (if d.unit = "ft" then "feet" else "meters") ++ " wide by " ++ toString d.length ++ " " ++
         (if d.unit = "ft" then "feet" else "meters") ++
         " long. Please ensure your furniture suggestions and layout advice are appropriately scaled for a room of this size and explicitly mention this in your analysis.") ∧
    (∀ d, dims = some d → d.width = 0 ∨ d.length = 0 → dimensionText dims = "") ∧
    (dims = none → dimensionText dims = "") ∧
    (dimensionText dims = "" →
       designIdeasPromptText style roomType dims =
         designIdeasPromptPre style roomType ++ designIdeasPromptPost style) := by
  refine ⟨rfl, ?_, ?_, ?_, ?_⟩
  · intro d hd h1 h2
    subst hd
    simp [dimensionText, bne_iff_ne, h1, h2]
  · intro d hd h
    subst hd
    rcases h with h | h <;> simp [dimensionText, h]
  · intro h
    rw [h]
    rfl
  · intro h
    rw [designIdeasPromptText, h, String.append_empty]

/-- C5 witness: with width 12 and length 15 in feet, the sentence is
produced with the unit rendered as "feet". -/
theorem C5_dimension_sentence_witness :
    dimensionText (some ⟨12, 15, "ft"⟩) =
      " The user has specified the room is approximately 12 feet wide by 15 feet long. Please ensure your furniture suggestions and layout advice are appropriately scaled for a room of this size and explicitly mention this in your analysis." := by
  have h := (C5_dimension_sentence "Modern" "bedroom" (some ⟨12, 15, "ft"⟩)).2.1
    ⟨12, 15, "ft"⟩ rfl (by decide) (by decide)
  rw [h]
  rfl

/-- C6: the direct-call client copy of `generateRedesignedImage`
selects the exterior template exactly when `roomType`, lowercased,
equals "exterior": so "Exterior", "EXTERIOR" and "exterior" select the
exterior variant and "Exterior Courtyard" the interior one; the
exterior template carries the landscaping & decor vocabulary and the
roofline-preservation rule, the interior one the furniture
vocabulary. -/
theorem C6_exterior_template_selection :
    (∀ plan style roomType newColors,
       generateRedesignedImagePromptClient plan style roomType newColors =
         (if jsToLowerCase roomType = "exterior" then
            exteriorPromptRaw plan style
              (jsOrElse (newColors.map ColorPalette.color) plan.wallColor.color)
              (jsOrElse (newColors.map ColorPalette.accent) plan.wallColor.accent)
          else
            interiorPromptRaw plan style
              (jsOrElse (newColors.map ColorPalette.color) plan.wallColor.color)
              (jsOrElse (newColors.map ColorPalette.accent) plan.wallColor.accent)).trim) ∧
    (∀ plan style,
       generateRedesignedImagePromptClient plan style "Exterior" none =
         (exteriorPromptRaw plan style plan.wallColor.color plan.wallColor.accent).trim) ∧
    (∀ plan style,
       generateRedesignedImagePromptClient plan style "EXTERIOR" none =
         (exteriorPromptRaw plan style plan.wallColor.color plan.wallColor.accent).trim) ∧
    (∀ plan style,
       generateRedesignedImagePromptClient plan style "exterior" none =
         (exteriorPromptRaw plan style plan.wallColor.color plan.wallColor.accent).trim) ∧
    (∀ plan style,
       generateRedesignedImagePromptClient plan style "Exterior Courtyard" none =
         (interiorPromptRaw plan style plan.wallColor.color plan.wallColor.accent).trim) ∧
    (∀ plan style primaryColor accentColor,
       jsIncludes (exteriorPromptRaw plan style primaryColor accentColor)
         "Landscaping & Decor" = true) ∧
    (∀ plan style primaryColor accentColor,
       jsIncludes (exteriorPromptRaw plan style primaryColor accentColor) "roofline" = true) ∧
    (∀ plan style primaryColor accentColor,
       jsIncludes (interiorPromptRaw plan style primaryColor accentColor) "Furniture" = true) := by
  refine ⟨?_, ?_, ?_, ?_, ?_, ?_, ?_, ?_⟩
  · intro plan style roomType newColors
    rfl
  · intro plan style
    have hcond : jsToLowerCase "Exterior" = "exterior" := by decide
    simp [generateRedesignedImagePromptClient, hcond, jsOrElse]
  · intro plan style
    have hcond : jsToLowerCase "EXTERIOR" = "exterior" := by decide
    simp [generateRedesignedImagePromptClient, hcond, jsOrElse]
  · intro plan style
    have hcond : jsToLowerCase "exterior" = "exterior" := by decide
    simp [generateRedesignedImagePromptClient, hcond, jsOrElse]
  · intro plan style
    have hcond : ¬ (jsToLowerCase "Exterior Courtyard" = "exterior") := by decide
    simp [generateRedesignedImagePromptClient, hcond, jsOrElse]
  · intro plan style primaryColor accentColor
    unfold exteriorPromptRaw
    apply jsIncludes_append_left
    apply jsIncludes_append_left
    apply jsIncludes_append_left
    apply jsIncludes_append_left
    apply jsIncludes_append_left
    apply jsIncludes_append_right
    exact jsIncludes_refl _
  · intro plan style primaryColor accentColor
    unfold exteriorPromptRaw
    apply jsIncludes_append_left
    apply jsIncludes_append_right
    exact jsIncludes_refl _
  · intro plan style primaryColor accentColor
    unfold interiorPromptRaw
    apply jsIncludes_append_left
    apply jsIncludes_append_left
    apply jsIncludes_append_left
    apply jsIncludes_append_right
    exact jsIncludes_refl _

/-- C8 (amended): the server-side redesign prompt enumerates every
furniture item of the plan as a `- name: placement` line (each such
line occurs in the prompt, and the enumeration is
`String.intercalate "\n"` over the plan's items in order); the
`newColors` override replaces the plan's wall colours componentwise,
but through `||`, so an empty override component falls back to the
plan's own colour. -/
theorem C8_redesign_prompt_content (plan : DesignPlan) (style roomType : String)
    (nc : ColorPalette) :
    (∀ newColors f, f ∈ plan.furnitureSuggestions →
       jsIncludes (generateRedesignedImagePrompt plan style roomType newColors)
         ("- " ++ f.name ++ ": " ++ f.placement) = true) ∧
    (furnitureListServer plan =
       String.intercalate "\n" (plan.furnitureSuggestions.map fun f =>
         "- " ++ f.name ++ ": " ++ f.placement)) ∧
    (generateRedesignedImagePrompt plan style roomType none =
       redesignPromptWithColors plan style roomType plan.wallColor.color plan.wallColor.accent) ∧
    (generateRedesignedImagePrompt plan style roomType (some nc) =
       redesignPromptWithColors plan style roomType
         (if nc.color = "" then plan.wallColor.color else nc.color)
         (if nc.accent = "" then plan.wallColor.accent else nc.accent)) ∧
    (nc.color ≠ "" → nc.accent ≠ "" →
       generateRedesignedImagePrompt plan style roomType (some nc) =
         redesignPromptWithColors plan style roomType nc.color nc.accent) := by
  refine ⟨?_, rfl, rfl, ?_, ?_⟩
  · intro newColors f hf
    have hmem : ("- " ++ f.name ++ ": " ++ f.placement) ∈
        plan.furnitureSuggestions.map (fun f => "- " ++ f.name ++ ": " ++ f.placement) :=
      List.mem_map_of_mem _ hf
    obtain ⟨p, q, hd⟩ := intercalate_mem_decomp "\n" hmem
    unfold generateRedesignedImagePrompt redesignPromptWithColors
    apply jsIncludes_append_left
    apply jsIncludes_append_left
    apply jsIncludes_append_right
    exact (jsIncludes_iff_decomp _ _).mpr ⟨p, q, by rw [furnitureListServer, hd]⟩
  · by_cases hc : nc.color = "" <;> by_cases ha : nc.accent = "" <;>
      simp [generateRedesignedImagePrompt, jsOrElse, hc, ha]
  · intro h1 h2
    simp [generateRedesignedImagePrompt, jsOrElse, bne_iff_ne, h1, h2]

def sofaItem : FurnitureItem := ⟨"Sofa", "A plush sectional", "center", 1200, none⟩

def lampItem : FurnitureItem :=
  ⟨"Lamp", "An arched floor lamp", "corner", 150, some "https://example.com/lamp.gltf"⟩

/-- A concrete design plan used by the redesign-prompt witnesses. -/
def fixturePlan : DesignPlan :=
  ⟨"A bright room", "Balance and harmony", ⟨"Beige", "Brown"⟩, "Recessed lights",
   "Oak floors", [sofaItem, lampItem], ⟨500, 1500, "USD"⟩, [⟨"Sage", "Cream"⟩]⟩

/-- C8 witness: for a concrete plan the prompt contains the first
item's `- name: placement` line, and a non-empty override is used
verbatim. -/
theorem C8_redesign_prompt_content_witness :
    jsIncludes (generateRedesignedImagePrompt fixturePlan "modern" "bedroom" none)
      ("- " ++ "Sofa" ++ ": " ++ "center") = true ∧
    generateRedesignedImagePrompt fixturePlan "modern" "bedroom" (some ⟨"Navy", "Gold"⟩) =
      redesignPromptWithColors fixturePlan "modern" "bedroom" "Navy" "Gold" :=
  ⟨(C8_redesign_prompt_content fixturePlan "modern" "bedroom" ⟨"Navy", "Gold"⟩).1 none sofaItem
     (List.mem_cons_self _ _),
   (C8_redesign_prompt_content fixturePlan "modern" "bedroom" ⟨"Navy", "Gold"⟩).2.2.2.2
     (by decide) (by decide)⟩

/-- The override palette both of whose components are empty strings. -/
def emptyOverride : ColorPalette := ⟨"", ""⟩

/-- C8 counterexample: with the override `{color: "", accent: ""}`
supplied, the prompt is built from the plan's own wall colours — it
equals the prompt built with no override and differs from the prompt
the claim mandates (the override's colours in place of the plan's). -/
theorem C8_empty_override_falls_back :
    generateRedesignedImagePrompt fixturePlan "modern" "bedroom" (some emptyOverride) =
      generateRedesignedImagePrompt fixturePlan "modern" "bedroom" none ∧
    generateRedesignedImagePrompt fixturePlan "modern" "bedroom" (some emptyOverride) =
      redesignPromptWithColors fixturePlan "modern" "bedroom" "Beige" "Brown" ∧
    ((generateRedesignedImagePrompt fixturePlan "modern" "bedroom" (some emptyOverride)) ==
      redesignPromptWithColors fixturePlan "modern" "bedroom"
        emptyOverride.color emptyOverride.accent) = false :=
  ⟨rfl, rfl, by decide⟩

lemma callApi_not_ok_error (r : TransportResponse) (hok : r.ok = false) :
    ∃ e, callApi r = .error e := by
  rcases hb : r.body with pe | result
  · simp [callApi, hb]
  · rcases hg : result.getField "error" with _ | v
    · simp [callApi, hb, hok, hg]
    · cases v with
      | str s =>
        by_cases hs : (s != "" && jsIncludes s "safety") = true
        · simp [callApi, hb, hok, hg, hs]
        · simp [callApi, hb, hok, hg, hs]
      | null => simp [callApi, hb, hok, hg, Json.truthy]
      | bool b => cases b <;> simp [callApi, hb, hok, hg, Json.truthy]
      | num n => by_cases hn : (n != 0) = true <;> simp [callApi, hb, hok, hg, Json.truthy, hn]
      | arr xs => simp [callApi, hb, hok, hg, Json.truthy]
      | obj fs => simp [callApi, hb, hok, hg, Json.truthy]

/-- C9 (amended): for every non-success transport outcome whose body
parses, `callApi` throws exactly one error — the fixed friendly message
when the error text contains "safety", else the `An error occurred: `
wrapper around the raw message (with "Unknown server error" substituted
for an empty or absent message); a non-success outcome whose error body
cannot be parsed throws the parse failure itself, with no fallback
message substituted; and no non-success outcome ever returns a
result. -/
theorem C9_client_error_translation (r : TransportResponse) (hok : r.ok = false) :
    (∀ result s, r.body = .ok result → result.getField "error" = some (Json.str s) →
       (s ≠ "" → jsIncludes s "safety" = true → callApi r = .error safetyFriendlyMessage) ∧
       (s ≠ "" → jsIncludes s "safety" = false →
          callApi r = .error ("An error occurred: " ++ s)) ∧
       (s = "" → callApi r = .error ("An error occurred: " ++ "Unknown server error"))) ∧
    (∀ result, r.body = .ok result → result.getField "error" = none →
       callApi r = .error ("An error occurred: " ++ "Unknown server error")) ∧
    (∀ parseError, r.body = .error parseError → callApi r = .error parseError) ∧
    (∃ e, callApi r = .error e) := by
  refine ⟨?_, ?_, ?_, callApi_not_ok_error r hok⟩
  · intro result s hb hg
    refine ⟨?_, ?_, ?_⟩
    · intro hne hsafe
      simp [callApi, hb, hok, hg, bne_iff_ne, hne, hsafe]
    · intro hne hsafe
      simp [callApi, hb, hok, hg, bne_iff_ne, hne, hsafe]
    · intro hs
      simp [callApi, hb, hok, hg, hs]
  · intro result hb hg
    simp [callApi, hb, hok, hg]
  · intro parseError hb
    simp [callApi, hb]

/-- A non-ok transport outcome whose error body fails to parse. -/
def unparsedErrorTransport : TransportResponse :=
  ⟨false, .error "Unexpected token < in JSON at position 0"⟩

/-- C9 counterexample: when the error body of a non-success outcome
cannot be parsed, the client facade throws the raw parse failure — the
claimed "failed to parse error response" fallback message is not
substituted (no variant of it occurs in the thrown message). -/
theorem C9_parse_failure_not_substituted :
    callApi unparsedErrorTransport = .error "Unexpected token < in JSON at position 0" ∧
    jsIncludes "Unexpected token < in JSON at position 0"
      "Failed to parse error response" = false ∧
    jsIncludes "Unexpected token < in JSON at position 0" "failed to parse" = false :=
  ⟨rfl, rfl, rfl⟩

/-- A non-ok outcome whose error mentions the safety filter. -/
def safetyErrorTransport : TransportResponse :=
  ⟨false, .ok (Json.obj [("error", Json.str "Blocked by safety filter")])⟩

/-- A non-ok outcome with an ordinary error message. -/
def plainErrorTransport : TransportResponse :=
  ⟨false, .ok (Json.obj [("error", Json.str "boom")])⟩

/-- C9 witness: a safety-mentioning error is rewritten to the friendly
message; an ordinary error is wrapped with `An error occurred: `. -/
theorem C9_client_error_translation_witness :
    callApi safetyErrorTransport = .error safetyFriendlyMessage ∧
    callApi plainErrorTransport = .error ("An error occurred: " ++ "boom") :=
  ⟨((C9_client_error_translation safetyErrorTransport rfl).1 _ "Blocked by safety filter"
      rfl rfl).1 (by decide) (by decide),
   ((C9_client_error_translation plainErrorTransport rfl).1 _ "boom" rfl rfl).2.1
      (by decide) (by decide)⟩

end InteriorDesign
